import Mathlib

/-!
Verification of the gcp-budget-guard reconciliation core.

The Python sources are embedded shallowly:

* currency amounts (Python `float`) are modelled as `ℚ`;
* Python's `round(x, n)` is modelled as round-half-to-even at `n` decimal
  digits over `ℚ` (`rhe`, `round6`, `round4` below);
* dictionaries keyed by service key are modelled as functions out of
  `String`, with the `dict.get(key, default)` defaults made explicit;
* fallible external calls (Cloud Monitoring queries, price lookups,
  API enable/disable) are passed in as explicit `Except`/`Bool`-valued
  arguments, so that a check cycle is a pure function of its inputs.
-/

namespace BudgetGuard

/-- Round half to even to the nearest integer, the rounding used by
Python's built-in `round`.  `⌊x⌋` when the fractional part is below 1/2,
`⌊x⌋ + 1` when above, and the even neighbour on a tie. -/
def rhe (x : ℚ) : ℤ :=
  let f := ⌊x⌋
  if x - f < 1/2 then f
  else if 1/2 < x - f then f + 1
  else if f % 2 = 0 then f else f + 1

/-- `round(x, 6)` from `StateManager.set_baseline` / `set_last_known_cost`. -/
def round6 (x : ℚ) : ℚ := (rhe (x * 1000000) : ℚ) / 1000000

/-- `round(x, 4)` used for the `baseline_saved` field returned by
`BudgetMonitorService.reset_service`. -/
def round4 (x : ℚ) : ℚ := (rhe (x * 10000) : ℚ) / 10000

theorem floor_le_rhe (x : ℚ) : ⌊x⌋ ≤ rhe x := by
  unfold rhe
  dsimp only
  split
  · exact le_refl _
  · split
    · exact Int.le_add_one (le_refl _)
    · split
      · exact le_refl _
      · exact Int.le_add_one (le_refl _)

theorem rhe_le (x : ℚ) : (rhe x : ℚ) ≤ x + 1/2 := by
  have hfl : (⌊x⌋ : ℚ) ≤ x := Int.floor_le x
  unfold rhe
  dsimp only
  split
  · linarith
  · rename_i h1
    push_neg at h1
    split
    · push_cast
      linarith
    · rename_i h2
      push_neg at h2
      have hx : x - (⌊x⌋ : ℚ) = 1/2 := le_antisymm h2 h1
      split
      · linarith
      · push_cast
        linarith

theorem le_rhe (x : ℚ) : x - 1/2 ≤ (rhe x : ℚ) := by
  have hfl : (⌊x⌋ : ℚ) ≤ x := Int.floor_le x
  have hfl' : x < (⌊x⌋ : ℚ) + 1 := Int.lt_floor_add_one x
  unfold rhe
  dsimp only
  split
  · rename_i h1
    linarith
  · split
    · push_cast
      linarith
    · rename_i h1 h2
      push_neg at h1 h2
      have hx : x - (⌊x⌋ : ℚ) = 1/2 := le_antisymm h2 h1
      split
      · linarith
      · push_cast
        linarith

theorem rhe_intCast (n : ℤ) : rhe (n : ℚ) = n := by
  unfold rhe
  dsimp only
  rw [Int.floor_intCast]
  rw [if_pos]
  simp

theorem rhe_nonneg {x : ℚ} (hx : 0 ≤ x) : 0 ≤ rhe x :=
  le_trans (Int.le_floor.mpr (by exact_mod_cast hx)) (floor_le_rhe x)

theorem round6_nonneg {x : ℚ} (hx : 0 ≤ x) : 0 ≤ round6 x := by
  unfold round6
  have h : (0 : ℤ) ≤ rhe (x * 1000000) := rhe_nonneg (by positivity)
  positivity

theorem sub_round6_le (x : ℚ) : x - round6 x ≤ 1/2000000 := by
  unfold round6
  have h := le_rhe (x * 1000000)
  have e : ((rhe (x * 1000000) : ℚ)) / 1000000 * 1000000 = (rhe (x * 1000000) : ℚ) := by
    field_simp
  linarith [h, e]

theorem round6_le_add (x : ℚ) : round6 x ≤ x + 1/2000000 := by
  unfold round6
  have h := rhe_le (x * 1000000)
  have e : ((rhe (x * 1000000) : ℚ)) / 1000000 * 1000000 = (rhe (x * 1000000) : ℚ) := by
    field_simp
  linarith [h, e]

theorem round6_idem (x : ℚ) : round6 (round6 x) = round6 x := by
  unfold round6
  rw [div_mul_cancel₀ _ (by norm_num : (1000000:ℚ) ≠ 0)]
  rw [rhe_intCast]

theorem round6_eq_self_of_den {x : ℚ} (h : (x * 1000000).den = 1) :
    round6 x = x := by
  unfold round6
  have hx : ((x * 1000000).num : ℚ) = x * 1000000 := by
    conv_rhs => rw [← Rat.num_div_den (x * 1000000)]
    rw [h]
    norm_num
  rw [← hx, rhe_intCast, hx]
  field_simp

/-! ### `ServiceBudget` (src/src/config/budget.py) -/

/-- `ServiceBudget` dataclass: budget vs. actual expense for one service. -/
structure ServiceBudget where
  service_key : String
  api_name : String
  monthly_budget : ℚ
  current_expense : ℚ
deriving Repr, DecidableEq

/-- `ServiceBudget.usage_pct`: 0 when the budget is not positive, otherwise
`current_expense / monthly_budget * 100`. -/
def ServiceBudget.usage_pct (s : ServiceBudget) : ℚ :=
  if s.monthly_budget ≤ 0 then 0
  else s.current_expense / s.monthly_budget * 100

/-- `ServiceBudget.is_exceeded`: `monthly_budget > 0 and
current_expense >= monthly_budget`. -/
def ServiceBudget.is_exceeded (s : ServiceBudget) : Bool :=
  decide (s.monthly_budget > 0) && decide (s.current_expense ≥ s.monthly_budget)

/-! ### `StateManager` (src/src/services/state_manager.py)

The persisted JSON blob, with the dictionaries modelled as functions out
of `String`.  Audit entries are identified by their `action` name (the
timestamp/details payload plays no role in any claim). -/

/-- The persisted state document: `baselines`, `last_known_costs`,
`alerts_sent`, `action_history`, `current_month`. -/
structure GuardState where
  baselines : String → Option ℚ
  last_known_costs : String → Option ℚ
  alerts_sent : String → List String
  action_history : List String
  current_month : String

/-- The freshly-loaded empty state (`_load` returning `{}`). -/
def emptyState : GuardState :=
  { baselines := fun _ => none
    last_known_costs := fun _ => none
    alerts_sent := fun _ => []
    action_history := []
    current_month := "" }

/-- `StateManager.get_baseline`: stored baseline, `0.0` if not set. -/
def GuardState.get_baseline (st : GuardState) (key : String) : ℚ :=
  (st.baselines key).getD 0

/-- `StateManager.set_baseline`: stores `round(cost, 6)` for the key. -/
def GuardState.set_baseline (st : GuardState) (key : String) (cost : ℚ) : GuardState :=
  { st with baselines := fun k => if k = key then some (round6 cost) else st.baselines k }

/-- `StateManager.get_last_known_cost`: stored value or `None`. -/
def GuardState.get_last_known_cost (st : GuardState) (key : String) : Option ℚ :=
  st.last_known_costs key

/-- `StateManager.set_last_known_cost`: stores `round(cost, 6)`. -/
def GuardState.set_last_known_cost (st : GuardState) (key : String) (cost : ℚ) : GuardState :=
  { st with last_known_costs :=
      fun k => if k = key then some (round6 cost) else st.last_known_costs k }

/-- `StateManager.set_alert_sent`: appends the level to the service's list
when not already present. -/
def GuardState.set_alert_sent (st : GuardState) (key level : String) : GuardState :=
  { st with alerts_sent := fun k =>
      if k = key then
        (if level ∈ st.alerts_sent key then st.alerts_sent key
         else st.alerts_sent key ++ [level])
      else st.alerts_sent k }

/-- `StateManager.reset_alerts`: pops the service's alert-level list. -/
def GuardState.reset_alerts (st : GuardState) (key : String) : GuardState :=
  { st with alerts_sent := fun k => if k = key then [] else st.alerts_sent k }

/-- `StateManager.record_action`: append an audit entry, keeping the last
200 entries. -/
def GuardState.record_action (st : GuardState) (action : String) : GuardState :=
  let history := st.action_history ++ [action]
  { st with action_history :=
      if history.length > 200 then history.drop (history.length - 200) else history }

/-- `StateManager.check_month_rollover`: compare the stored month string
against the current UTC year-month (passed in as `nowMonth`); on a change,
clear `baselines`, `alerts_sent` and `last_known_costs`, store the new
month and return `True`; otherwise return `False` leaving the state as is.
The stored month of a fresh state is `""` (`state.get("current_month", "")`). -/
def GuardState.check_month_rollover (st : GuardState) (nowMonth : String) :
    Bool × GuardState :=
  if st.current_month = nowMonth then (false, st)
  else
    (true,
     { st with
        baselines := fun _ => none
        alerts_sent := fun _ => []
        last_known_costs := fun _ => none
        current_month := nowMonth })

/-! ### Monitored services (src/src/helpers/constants.py) -/

/-- `MONITORED_API_SERVICES`: service key → controllable API name. -/
def MONITORED_API_SERVICES : List (String × String) :=
  [("vertex_ai", "aiplatform.googleapis.com"),
   ("bigquery", "bigquery.googleapis.com"),
   ("firestore", "firestore.googleapis.com")]

/-- `MONITORED_API_SERVICES.get(service_key)`. -/
def lookupApi (key : String) : Option String :=
  (MONITORED_API_SERVICES.find? (fun p => p.1 = key)).map (fun p => p.2)

/-! ### `BudgetMonitorService` (src/src/services/budget_monitor.py) -/

/-- `BudgetMonitorService._re_enable_all_services`: one `enable_api` call
per monitored API (`enable` is the call's Boolean outcome; `enable_api`
catches its own exceptions and returns a Bool).  Returns the trace of
`enable_api` invocations together with the successfully re-enabled names,
and appends the `monthly_reset_reenable` audit entry when any succeeded. -/
def re_enable_all (enable : String → Bool) (st : GuardState) :
    (List String × List String) × GuardState :=
  let r := MONITORED_API_SERVICES.foldl
    (fun acc p =>
      (acc.1 ++ [p.2], if enable p.2 then acc.2 ++ [p.2] else acc.2))
    ([], [])
  (r, if r.2 ≠ [] then st.record_action "monthly_reset_reenable" else st)

/-- Outcome of the rollover prologue of `run_check`. -/
structure RolloverOutcome where
  state : GuardState
  rollover : Bool
  enableCalls : List String
  re_enabled : List String

/-- The rollover prologue of `BudgetMonitorService.run_check`: detect the
month rollover, and when detected (or pending from `__init__`) re-enable
every monitored API. -/
def runCheckRollover (st : GuardState) (nowMonth : String) (pending : Bool)
    (enable : String → Bool) : RolloverOutcome :=
  let r := st.check_month_rollover nowMonth
  if r.1 || pending then
    let t := re_enable_all enable r.2
    { state := t.2, rollover := r.1, enableCalls := t.1.1, re_enabled := t.1.2 }
  else
    { state := r.2, rollover := r.1, enableCalls := [], re_enabled := [] }

/-- The baseline-application step of `run_check` (lines 104–119): the raw
cumulative cost is replaced by `max(0.0, raw - baseline)` when a positive
baseline is stored, and kept as is otherwise. -/
def baselineStep (raw baseline : ℚ) : ℚ :=
  if baseline > 0 then max 0 (raw - baseline) else raw

/-- Per-service outcome of one `run_check` cycle. -/
structure ServiceCheck where
  state : GuardState
  budget : ServiceBudget
  exceeded : Bool
  disableAttempted : Bool
  disabled : Bool

/-- The per-service body of `BudgetMonitorService.run_check`: `raw` is the
service's accumulated metric expense for this cycle; the raw value is
persisted as the last known cost, the stored baseline is subtracted
(`baselineStep`), and the threshold decision is taken on the resulting
`ServiceBudget`.  `_disable_service` returns `False` under `DRY_RUN_MODE`
and otherwise the `disable_api` outcome (`disableOk`). -/
def runCheckService (st : GuardState) (key api : String) (monthlyBudget raw : ℚ)
    (dryRun disableOk : Bool) : ServiceCheck :=
  let st1 := st.set_last_known_cost key raw
  let baseline := st1.get_baseline key
  let expense := baselineStep raw baseline
  let svc : ServiceBudget :=
    { service_key := key, api_name := api
      monthly_budget := monthlyBudget, current_expense := expense }
  let exceeded := svc.is_exceeded
  let disabled := exceeded && (!dryRun && disableOk)
  { state := st1, budget := svc, exceeded := exceeded
    disableAttempted := exceeded, disabled := disabled }

/-- Modelled from the spec: `NotificationService.reset_alerts`.  The
`BudgetMonitorService` in src calls `self.notifications.reset_alerts(key)`
and constructs `NotificationService(state_manager=...)`, but the
`NotificationService` committed under src/services/notification.py is an
older cooldown-only version without this method; the spec says the reset
"clears alert flags", and `StateManager.reset_alerts` (present in src) is
the state-backed clearing it delegates to. -/
def notificationResetAlerts (st : GuardState) (key : String) : GuardState :=
  st.reset_alerts key

/-- The cumulative cost that `reset_service` saves as the baseline: the
cached last known cost when present, else a live recomputation
(`_get_current_cumulative_cost`, passed in as `liveCost`), else `0.0`. -/
def resetCumulativeCost (st : GuardState) (key : String) (liveCost : Option ℚ) : ℚ :=
  match st.get_last_known_cost key with
  | some c => c
  | none =>
    match liveCost with
    | some c => c
    | none => 0

/-- The dictionary returned by `reset_service` for a known service key. -/
structure ResetResult where
  status : String
  service_key : String
  api_name : String
  api_enabled : Bool
  baseline_saved : ℚ
  alerts_reset : Bool
deriving Repr, DecidableEq

/-- `BudgetMonitorService.reset_service`: full reset for a service key.
For an unknown key the code returns an error dictionary (modelled as
`none`); otherwise it saves the baseline, clears the alert flags, attempts
the API re-enable (`enableOk` is the Boolean outcome of `enable_api`,
which catches its own exceptions), appends the audit entry, and reports
`success`/`partial` according to the enable outcome. -/
def reset_service (st : GuardState) (key : String) (liveCost : Option ℚ)
    (enableOk : Bool) : GuardState × Option ResetResult :=
  match lookupApi key with
  | none => (st, none)
  | some api =>
    let cumulative := resetCumulativeCost st key liveCost
    let st1 := st.set_baseline key cumulative
    let st2 := notificationResetAlerts st1 key
    let st3 := st2.record_action "reset_service"
    (st3,
     some { status := if enableOk then "success" else "partial"
            service_key := key
            api_name := api
            api_enabled := enableOk
            baseline_saved := round4 cumulative
            alerts_reset := true })

/-! ### `NotificationService` (src/src/services/notification.py)

The committed class de-duplicates with an in-memory per-(service, level)
cooldown map `_last_sent` (epoch seconds, `dict.get(key, 0)` default). -/

/-- The in-memory cooldown tracker `_last_sent`. -/
structure NotifState where
  last_sent : String × String → ℚ

/-- The fresh tracker (`self._last_sent = {}`). -/
def initialNotifState : NotifState := { last_sent := fun _ => 0 }

/-- `NotificationService._send_alert`: skip when the cooldown has not
elapsed; otherwise attempt email (only when configured) and Pub/Sub, and
record the send time only when at least one channel reported success.
`emailOk` / `pubsubOk` are the Boolean outcomes of `_send_email` and
`_publish_to_pubsub` (both catch their own exceptions). -/
def sendAlert (cooldown : ℚ) (ns : NotifState) (key level : String) (now : ℚ)
    (emailEnabled emailOk pubsubOk : Bool) : Bool × NotifState :=
  let last := ns.last_sent (key, level)
  if now - last < cooldown then (false, ns)
  else
    let email_sent := emailEnabled && emailOk
    let pubsub_sent := pubsubOk
    let sent := email_sent || pubsub_sent
    if sent then
      (sent, { last_sent := fun p => if p = (key, level) then now else ns.last_sent p })
    else
      (sent, ns)

/-! ### `WrapperCloudMonitoring` (src/src/wrappers/cloud_monitoring.py)

The result of `client.list_time_series` is passed in as an
`Except`: `.error` is an exception from the client call, `.ok` the pager,
modelled as the list of per-time-series point-value lists. -/

/-- `WrapperCloudMonitoring._query_time_series`: any exception from the
client call is caught and logged, returning `None`. -/
def queryTimeSeries (clientResult : Except String (List (List Int))) :
    Option (List (List Int)) :=
  match clientResult with
  | .ok pager => some pager
  | .error _ => none

/-- `WrapperCloudMonitoring.get_total_units`: `0` when `_query_time_series`
returned `None`, otherwise the sum of every point of every time series.
The return type is `Except` so that "raises an exception" is expressible;
the function itself only ever produces `.ok`. -/
def get_total_units (clientResult : Except String (List (List Int))) :
    Except String Int :=
  match queryTimeSeries clientResult with
  | none => .ok 0
  | some tss => .ok (tss.foldl (fun acc ts => acc + ts.foldl (· + ·) 0) 0)

/-! ### `BudgetMonitorService._compute_metric_expense` -/

/-- Runtime fields of a `MonitoredMetric` after `_compute_metric_expense`,
with the data-quality warning (the warning strings are abbreviated to
stable tags; the source formats them with the metric label). -/
structure MetricResult where
  price_per_unit : Option ℚ
  unit_count : Int
  expense : ℚ
  warning : Option String
deriving Repr, DecidableEq

/-- `BudgetMonitorService._compute_metric_expense`: the price lookup and
the usage lookup are each guarded by a `try/except`; a pricing failure
leaves `price_per_unit = None`, a monitoring failure leaves
`unit_count = 0`; the expense defaults to `0.0` when no price resolved,
and one of three warnings is emitted on failure. -/
def compute_metric_expense (priceResult : Except String (Option ℚ))
    (unitsResult : Except String Int) : MetricResult :=
  let price : Option ℚ := match priceResult with
    | .ok p => p
    | .error _ => none
  let pricing_failed : Bool := match priceResult with
    | .ok _ => false
    | .error _ => true
  let units : Int := match unitsResult with
    | .ok u => u
    | .error _ => 0
  let monitoring_failed : Bool := match unitsResult with
    | .ok _ => false
    | .error _ => true
  let expense : ℚ := match price with
    | some p => p * units
    | none => 0
  let price_missing := pricing_failed || price.isNone
  let warning : Option String :=
    if price_missing && monitoring_failed then some "pricing and monitoring unavailable"
    else if price_missing then some "Pricing unavailable"
    else if monitoring_failed then some "Monitoring data unavailable"
    else none
  { price_per_unit := price, unit_count := units, expense := expense, warning := warning }

/-! ### `PriceCatalogService` (src/src/services/price_catalog_service.py) -/

/-- One catalog pricing entry: `price_per_unit` over `unit_size` units. -/
structure TokenPrice where
  price_per_unit : ℚ
  unit_size : Int
deriving Repr, DecidableEq

/-- The loaded static catalog: the `vertex_ai` section maps a model key to
its per-token-type entries; `vertex_ai_defaults` is keyed by full strings
such as `default_input_token_price` with `default_token_unit_size`
defaulting to 1,000,000; `default_fallback_price` defaults to `0.0001`. -/
structure Catalog where
  vertex_ai : String → Option (String → Option TokenPrice)
  vertex_ai_defaults : String → Option ℚ
  default_token_unit_size : Int
  default_fallback_price : Option ℚ

/-- `PriceCatalogService.default_fallback_price` (property):
`self._data.get("default_fallback_price", 0.0001)`. -/
def Catalog.fallbackPrice (c : Catalog) : ℚ :=
  c.default_fallback_price.getD (1/10000)

/-- Whether `sep` occurs as a contiguous subsequence (Python's `in` on
strings). -/
def containsSeq (sep : List Char) : List Char → Bool
  | [] => sep.isEmpty
  | c :: cs => sep.isPrefixOf (c :: cs) || containsSeq sep cs

/-- The chunk after the last separator occurrence in Python's
left-to-right non-overlapping `s.split(sep)[-1]` semantics; `fuel` bounds
the recursion (the input length suffices for a non-empty separator). -/
def lastChunkAux (sep : List Char) : Nat → List Char → List Char → List Char
  | 0, acc, l => acc ++ l
  | _ + 1, acc, [] => acc
  | fuel + 1, acc, c :: cs =>
    if sep.isPrefixOf (c :: cs) then
      lastChunkAux sep fuel [] ((c :: cs).drop sep.length)
    else
      lastChunkAux sep fuel (acc.concat c) cs

/-- `PriceCatalogService._normalize_model_id`: take the part after the
last `/models/` when present (`model_id.split("/models/")[-1]`), then the
part before the first `@` (`.split("@")[0]`). -/
def normalize_model_id (model_id : String) : String :=
  let cs := model_id.toList
  let m1 :=
    if containsSeq ("/models/".toList) cs then
      lastChunkAux ("/models/".toList) cs.length [] cs
    else cs
  let m2 := if m1.contains '@' then m1.takeWhile (fun ch => ch ≠ '@') else m1
  String.mk m2

/-- `PriceCatalogService._extract_model_token_price`: look the model key up
in the `vertex_ai` section, then the token type inside it, dividing the
entry price by its unit size (0 when the unit size is not positive). -/
def extract_model_token_price (vertexData : String → Option (String → Option TokenPrice))
    (modelKey tokenType : String) : Option ℚ :=
  match vertexData modelKey with
  | none => none
  | some modelData =>
    match modelData tokenType with
    | none => none
    | some entry =>
      some (if entry.unit_size > 0 then entry.price_per_unit / entry.unit_size else 0)

/-- Step 3 of the model-price resolution: the service-wide default
input/output token price normalised by `default_token_unit_size`. -/
def defaultTokenPrice (c : Catalog) (tokenType : String) : Option ℚ :=
  match c.vertex_ai_defaults ("default_" ++ tokenType ++ "_token_price") with
  | none => none
  | some dp => some (if c.default_token_unit_size > 0 then dp / c.default_token_unit_size else 0)

/-- `PriceCatalogService.get_vertex_ai_model_price`: exact model match,
then normalised match (only when normalisation changed the id), then the
service-wide default token price, then the global fallback price. -/
def get_vertex_ai_model_price (c : Catalog) (model_id token_type : String) : Option ℚ :=
  match extract_model_token_price c.vertex_ai model_id token_type with
  | some p => some p
  | none =>
    let normalised := normalize_model_id model_id
    match (if normalised ≠ model_id then
             extract_model_token_price c.vertex_ai normalised token_type
           else none) with
    | some p => some p
    | none =>
      match defaultTokenPrice c token_type with
      | some dp => some dp
      | none => some c.fallbackPrice

/-! ### `BudgetMonitorService._compute_catch_all_expense` -/

/-- One discovered usage group from `get_grouped_units`: its label map and
unit count (`group.get("labels", {})`, `group.get("units", 0)`). -/
structure UsageGroup where
  labels : List (String × String)
  units : Int
deriving Repr, DecidableEq

/-- `labels.get(key, default)`. -/
def labelGet (labels : List (String × String)) (key dflt : String) : String :=
  match labels.find? (fun p => p.1 = key) with
  | some p => p.2
  | none => dflt

/-- `labels.get("model_user_id", "unknown")`. -/
def groupModelId (g : UsageGroup) : String := labelGet g.labels "model_user_id" "unknown"

/-- `labels.get("type", "input")`. -/
def groupTokenType (g : UsageGroup) : String := labelGet g.labels "type" "input"

/-- The price the catch-all loop resolves for a group: the
`get_vertex_ai_token_price` call with its surrounding `try/except`
(an exception leaves the price at `None`). -/
def resolveGroupPrice (priceFn : String → String → Except String (Option ℚ))
    (g : UsageGroup) : Option ℚ :=
  match priceFn (groupModelId g) (groupTokenType g) with
  | .ok p => p
  | .error _ => none

/-- One entry of the per-group detail list built by
`_compute_catch_all_expense`. -/
structure GroupDetail where
  label : String
  model_id : String
  token_type : String
  price_per_unit : ℚ
  unit_count : Int
  expense : ℚ
  pricing_source : String
deriving Repr, DecidableEq

/-- The detail dictionary appended for one group: an unresolvable price is
replaced by `0.0` and tagged `"none"`, a resolved one keeps the
`"model_catalog"` tag; the recorded expense is `round(price * units, 6)`. -/
def priceGroup (priceFn : String → String → Except String (Option ℚ))
    (g : UsageGroup) : GroupDetail :=
  let price := (resolveGroupPrice priceFn g).getD 0
  let source := if (resolveGroupPrice priceFn g).isSome then "model_catalog" else "none"
  { label := groupModelId g ++ " – " ++ groupTokenType g ++ " (catch-all)"
    model_id := groupModelId g
    token_type := groupTokenType g
    price_per_unit := price
    unit_count := g.units
    expense := round6 (price * g.units)
    pricing_source := source }

/-- A group's (unrounded) contribution to the item total. -/
def groupExpense (priceFn : String → String → Except String (Option ℚ))
    (g : UsageGroup) : ℚ :=
  (resolveGroupPrice priceFn g).getD 0 * g.units

/-- `BudgetMonitorService._compute_catch_all_expense`: a failed grouped
query yields cost `0.0` plus one warning; otherwise every discovered group
is priced independently, contributes `price * units` to the total (0 when
no price resolved, together with a warning), and is appended to the detail
list. -/
def compute_catch_all_expense (priceFn : String → String → Except String (Option ℚ))
    (groupedResult : Except String (List UsageGroup)) :
    ℚ × List String × List GroupDetail :=
  match groupedResult with
  | .error _ => (0, ["Monitoring query failed"], [])
  | .ok grouped =>
    ((grouped.map (groupExpense priceFn)).sum,
     (grouped.filter (fun g => (resolveGroupPrice priceFn g).isNone)).map
       (fun g => groupModelId g ++ "/" ++ groupTokenType g ++ ": No price available"),
     grouped.map (priceGroup priceFn))

/-! ## Helper lemmas -/

theorem get_baseline_set_last_known (st : GuardState) (key key' : String) (c : ℚ) :
    (st.set_last_known_cost key c).get_baseline key' = st.get_baseline key' := rfl

theorem baselineStep_round6_le (raw : ℚ) (hraw : 0 ≤ raw) :
    baselineStep raw (round6 raw) ≤ 1/2000000 := by
  unfold baselineStep
  by_cases h : round6 raw > 0
  · rw [if_pos h]
    exact max_le (by norm_num) (sub_round6_le raw)
  · rw [if_neg h]
    push_neg at h
    have h0 : round6 raw = 0 := le_antisymm h (round6_nonneg hraw)
    have h1 := sub_round6_le raw
    rw [h0] at h1
    linarith

theorem baselineStep_round6_eq_zero (raw : ℚ) (hraw : 0 ≤ raw)
    (h : (raw * 1000000).den = 1) : baselineStep raw (round6 raw) = 0 := by
  rw [round6_eq_self_of_den h]
  unfold baselineStep
  by_cases hpos : raw > 0
  · rw [if_pos hpos]
    simp
  · rw [if_neg hpos]
    push_neg at hpos
    linarith [le_antisymm hpos hraw]

theorem is_exceeded_false_of_lt {s : ServiceBudget}
    (h : s.current_expense < s.monthly_budget) : s.is_exceeded = false := by
  unfold ServiceBudget.is_exceeded
  have : ¬ (s.current_expense ≥ s.monthly_budget) := not_le.mpr h
  simp [this]

/-! ## Claims -/

/-- C9: for every `ServiceBudget` with `monthly_budget ≤ 0`, `usage_pct`
is 0 (the division is never executed) and `is_exceeded` is `False`; for a
positive budget, `is_exceeded` holds exactly when
`current_expense ≥ monthly_budget`. -/
theorem usage_pct_zero_budget_safe (s : ServiceBudget) :
    (s.monthly_budget ≤ 0 → s.usage_pct = 0 ∧ s.is_exceeded = false) ∧
    (0 < s.monthly_budget →
      (s.is_exceeded = true ↔ s.current_expense ≥ s.monthly_budget)) := by
  constructor
  · intro h
    refine ⟨?_, ?_⟩
    · unfold ServiceBudget.usage_pct
      rw [if_pos h]
    · unfold ServiceBudget.is_exceeded
      have : ¬ (s.monthly_budget > 0) := not_lt.mpr h
      simp [this]
  · intro h
    unfold ServiceBudget.is_exceeded
    simp [h]

/-- Witness for C9 at `monthly_budget = 0`, `current_expense = 57` and at
`monthly_budget = 100`, `current_expense = 150`. -/
theorem usage_pct_zero_budget_safe_witness :
    ((0:ℚ) ≤ 0 ∧
      (ServiceBudget.mk "vertex_ai" "aiplatform.googleapis.com" 0 57).usage_pct = 0 ∧
      (ServiceBudget.mk "vertex_ai" "aiplatform.googleapis.com" 0 57).is_exceeded = false) ∧
    ((0:ℚ) < 100 ∧
      ((ServiceBudget.mk "vertex_ai" "aiplatform.googleapis.com" 100 150).is_exceeded = true ↔
        (150:ℚ) ≥ 100)) :=
  ⟨⟨le_refl 0,
    ((usage_pct_zero_budget_safe _).1 (le_refl 0)).1,
    ((usage_pct_zero_budget_safe _).1 (le_refl 0)).2⟩,
   ⟨by norm_num, (usage_pct_zero_budget_safe _).2 (by norm_num)⟩⟩

/-- C1: in `run_check`, after the baseline step, the expense fed to the
budget equals `max(0, raw - baseline)` for any non-negative raw cumulative
expense and persisted baseline, and is therefore never negative. -/
theorem run_check_baseline_step (st : GuardState) (key api : String)
    (monthlyBudget raw : ℚ) (dryRun disableOk : Bool)
    (hraw : 0 ≤ raw) (hb : 0 ≤ st.get_baseline key) :
    (runCheckService st key api monthlyBudget raw dryRun disableOk).budget.current_expense
        = max 0 (raw - st.get_baseline key) ∧
    0 ≤ (runCheckService st key api monthlyBudget raw dryRun
        disableOk).budget.current_expense := by
  have hmain :
      (runCheckService st key api monthlyBudget raw dryRun
        disableOk).budget.current_expense = max 0 (raw - st.get_baseline key) := by
    show baselineStep raw ((st.set_last_known_cost key raw).get_baseline key) = _
    rw [get_baseline_set_last_known]
    unfold baselineStep
    by_cases h : st.get_baseline key > 0
    · rw [if_pos h]
    · rw [if_neg h]
      push_neg at h
      rw [le_antisymm h hb, sub_zero, max_eq_right hraw]
  exact ⟨hmain, by rw [hmain]; exact le_max_left 0 _⟩

/-- Witness for C1: baseline 100 with raw 150 gives expense 50, and with
raw 80 gives expense 0. -/
theorem run_check_baseline_step_witness :
    ((0:ℚ) ≤ 150 ∧
      0 ≤ (emptyState.set_baseline "vertex_ai" 100).get_baseline "vertex_ai" ∧
      (runCheckService (emptyState.set_baseline "vertex_ai" 100) "vertex_ai"
          "aiplatform.googleapis.com" 100 150 false true).budget.current_expense
        = max 0 (150 - (emptyState.set_baseline "vertex_ai" 100).get_baseline "vertex_ai") ∧
      (runCheckService (emptyState.set_baseline "vertex_ai" 100) "vertex_ai"
          "aiplatform.googleapis.com" 100 150 false true).budget.current_expense = 50) ∧
    ((0:ℚ) ≤ 80 ∧
      (runCheckService (emptyState.set_baseline "vertex_ai" 100) "vertex_ai"
          "aiplatform.googleapis.com" 100 80 false true).budget.current_expense = 0) := by
  have hb : (emptyState.set_baseline "vertex_ai" 100).get_baseline "vertex_ai" = 100 := by
    simp only [GuardState.get_baseline, GuardState.set_baseline, emptyState]
    norm_num [round6, rhe]
  have hb0 : (0:ℚ) ≤ (emptyState.set_baseline "vertex_ai" 100).get_baseline "vertex_ai" := by
    rw [hb]; norm_num
  refine ⟨⟨by norm_num, hb0, ?_, ?_⟩, ⟨by norm_num, ?_⟩⟩
  · exact (run_check_baseline_step _ _ _ _ _ _ _ (by norm_num) hb0).1
  · rw [(run_check_baseline_step (emptyState.set_baseline "vertex_ai" 100) "vertex_ai"
      "aiplatform.googleapis.com" 100 150 false true (by norm_num) hb0).1, hb]
    norm_num
  · rw [(run_check_baseline_step (emptyState.set_baseline "vertex_ai" 100) "vertex_ai"
      "aiplatform.googleapis.com" 100 80 false true (by norm_num) hb0).1, hb]
    norm_num

/-- The reset-then-recheck scenario of the anti-flapping property: one
check cycle computing raw cumulative cost `raw`, then an admin
`reset_service`, then a second check cycle observing the same unchanged
`raw`. -/
def resetRecheck (st : GuardState) (key api : String) (budget raw : ℚ)
    (liveCost : Option ℚ) (enableOk dryRun disableOk : Bool) : ServiceCheck :=
  let c1 := runCheckService st key api budget raw dryRun disableOk
  let r := reset_service c1.state key liveCost enableOk
  runCheckService r.1 key api budget raw dryRun disableOk

theorem runCheckService_state (st : GuardState) (key api : String) (b raw : ℚ)
    (d o : Bool) :
    (runCheckService st key api b raw d o).state = st.set_last_known_cost key raw := rfl

theorem runCheckService_expense (st : GuardState) (key api : String) (b raw : ℚ)
    (d o : Bool) :
    (runCheckService st key api b raw d o).budget.current_expense
      = baselineStep raw (st.get_baseline key) := rfl

theorem runCheckService_exceeded (st : GuardState) (key api : String) (b raw : ℚ)
    (d o : Bool) :
    (runCheckService st key api b raw d o).exceeded
      = (ServiceBudget.mk key api b (baselineStep raw (st.get_baseline key))).is_exceeded :=
  rfl

theorem runCheckService_disableAttempted (st : GuardState) (key api : String)
    (b raw : ℚ) (d o : Bool) :
    (runCheckService st key api b raw d o).disableAttempted
      = (runCheckService st key api b raw d o).exceeded := rfl

theorem runCheckService_disabled (st : GuardState) (key api : String) (b raw : ℚ)
    (d o : Bool) :
    (runCheckService st key api b raw d o).disabled
      = ((runCheckService st key api b raw d o).exceeded && (!d && o)) := rfl

theorem get_last_known_set (st : GuardState) (key : String) (c : ℚ) :
    (st.set_last_known_cost key c).get_last_known_cost key = some (round6 c) := by
  simp [GuardState.set_last_known_cost, GuardState.get_last_known_cost]

theorem reset_service_baseline (st : GuardState) (key api : String)
    (liveCost : Option ℚ) (enableOk : Bool) (hkey : lookupApi key = some api) :
    (reset_service st key liveCost enableOk).1.get_baseline key
      = round6 (resetCumulativeCost st key liveCost) := by
  unfold reset_service
  rw [hkey]
  simp [GuardState.get_baseline, GuardState.set_baseline, GuardState.record_action,
    GuardState.reset_alerts, notificationResetAlerts]

/-- C2 (amended): after a check cycle records raw cumulative cost `raw`
and a `reset_service` saves the cached cost as the baseline, the next
cycle with unchanged raw usage computes an effective expense of at most
5·10⁻⁷ (the residue of `StateManager`'s 6-decimal rounding); it is
exactly 0 whenever `raw` is a whole multiple of 10⁻⁶ currency units, and
for any monthly budget of at least 10⁻⁶ the service is not exceeded and
its API is not disabled again. -/
theorem reset_anti_flapping (st : GuardState) (key api : String)
    (budget raw : ℚ) (liveCost : Option ℚ) (enableOk dryRun disableOk : Bool)
    (hkey : lookupApi key = some api) (hraw : 0 ≤ raw) :
    (resetRecheck st key api budget raw liveCost enableOk dryRun
        disableOk).budget.current_expense ≤ 1/2000000 ∧
    ((raw * 1000000).den = 1 →
      (resetRecheck st key api budget raw liveCost enableOk dryRun
        disableOk).budget.current_expense = 0) ∧
    (1/1000000 ≤ budget →
      (resetRecheck st key api budget raw liveCost enableOk dryRun
          disableOk).exceeded = false ∧
      (resetRecheck st key api budget raw liveCost enableOk dryRun
          disableOk).disableAttempted = false ∧
      (resetRecheck st key api budget raw liveCost enableOk dryRun
          disableOk).disabled = false) := by
  have hb : (reset_service (runCheckService st key api budget raw dryRun disableOk).state
      key liveCost enableOk).1.get_baseline key = round6 raw := by
    rw [reset_service_baseline _ _ _ _ _ hkey, runCheckService_state]
    unfold resetCumulativeCost
    rw [get_last_known_set]
    exact round6_idem raw
  have hexp : (resetRecheck st key api budget raw liveCost enableOk dryRun
      disableOk).budget.current_expense = baselineStep raw (round6 raw) := by
    simp only [resetRecheck]
    rw [runCheckService_expense, hb]
  have hexc : (resetRecheck st key api budget raw liveCost enableOk dryRun
      disableOk).exceeded
      = (ServiceBudget.mk key api budget (baselineStep raw (round6 raw))).is_exceeded := by
    simp only [resetRecheck]
    rw [runCheckService_exceeded, hb]
  refine ⟨?_, ?_, ?_⟩
  · rw [hexp]
    exact baselineStep_round6_le raw hraw
  · intro hden
    rw [hexp]
    exact baselineStep_round6_eq_zero raw hraw hden
  · intro hbud
    have hlt : baselineStep raw (round6 raw) < budget := by
      have := baselineStep_round6_le raw hraw
      linarith
    have hfalse : (resetRecheck st key api budget raw liveCost enableOk dryRun
        disableOk).exceeded = false := by
      rw [hexc]
      exact is_exceeded_false_of_lt hlt
    refine ⟨hfalse, ?_, ?_⟩
    · simp only [resetRecheck] at hfalse ⊢
      rw [runCheckService_disableAttempted]
      exact hfalse
    · simp only [resetRecheck] at hfalse ⊢
      rw [runCheckService_disabled, hfalse]
      simp

/-- C2 counterexample: with raw cumulative cost 10⁻⁷ and an admissible
budget of 10⁻⁸, `StateManager`'s 6-decimal rounding stores baseline 0 at
reset, so the next unchanged cycle computes effective expense 10⁻⁷ ≠ 0,
the service counts as exceeded again and its API is disabled again. -/
theorem reset_anti_flapping_counterexample :
    (resetRecheck emptyState "vertex_ai" "aiplatform.googleapis.com"
        (1/100000000) (1/10000000) none true false true).budget.current_expense
      = 1/10000000 ∧
    (resetRecheck emptyState "vertex_ai" "aiplatform.googleapis.com"
        (1/100000000) (1/10000000) none true false true).budget.current_expense ≠ 0 ∧
    (resetRecheck emptyState "vertex_ai" "aiplatform.googleapis.com"
        (1/100000000) (1/10000000) none true false true).exceeded = true ∧
    (resetRecheck emptyState "vertex_ai" "aiplatform.googleapis.com"
        (1/100000000) (1/10000000) none true false true).disabled = true := by
  simp only [resetRecheck, runCheckService, reset_service, resetCumulativeCost,
    notificationResetAlerts, emptyState, GuardState.set_last_known_cost,
    GuardState.get_last_known_cost, GuardState.get_baseline, GuardState.set_baseline,
    GuardState.reset_alerts, GuardState.record_action, lookupApi,
    MONITORED_API_SERVICES, List.find?, baselineStep, ServiceBudget.is_exceeded]
  norm_num [round6, rhe]

/-- Witness for C2 (amended) at the spec's own example: raw 150 over a
$100 budget. -/
theorem reset_anti_flapping_witness :
    lookupApi "vertex_ai" = some "aiplatform.googleapis.com" ∧ (0:ℚ) ≤ 150 ∧
    ((resetRecheck emptyState "vertex_ai" "aiplatform.googleapis.com" 100 150 none
        true false true).budget.current_expense ≤ 1/2000000 ∧
      (((150:ℚ) * 1000000).den = 1 →
        (resetRecheck emptyState "vertex_ai" "aiplatform.googleapis.com" 100 150 none
          true false true).budget.current_expense = 0) ∧
      ((1:ℚ)/1000000 ≤ 100 →
        (resetRecheck emptyState "vertex_ai" "aiplatform.googleapis.com" 100 150 none
            true false true).exceeded = false ∧
        (resetRecheck emptyState "vertex_ai" "aiplatform.googleapis.com" 100 150 none
            true false true).disableAttempted = false ∧
        (resetRecheck emptyState "vertex_ai" "aiplatform.googleapis.com" 100 150 none
            true false true).disabled = false)) :=
  ⟨by simp [lookupApi, MONITORED_API_SERVICES, List.find?], by norm_num,
   reset_anti_flapping emptyState "vertex_ai" "aiplatform.googleapis.com" 100 150 none
     true false true (by simp [lookupApi, MONITORED_API_SERVICES, List.find?])
     (by norm_num)⟩

/-- C4: `check_month_rollover` returns `True` exactly when the stored
month differs from the current UTC year-month; on that transition it
clears `baselines`, `alerts_sent` and `last_known_costs`, stores the new
month and leaves `action_history` unchanged; on a match it returns
`False` leaving the state untouched; and on a detected rollover
`run_check` calls `enable_api` exactly once for every monitored API. -/
theorem month_rollover_frame (st : GuardState) (nowMonth : String) (pending : Bool)
    (enable : String → Bool) :
    ((st.check_month_rollover nowMonth).1 = true ↔ st.current_month ≠ nowMonth) ∧
    (st.current_month ≠ nowMonth →
      (st.check_month_rollover nowMonth).2.baselines = (fun _ => none) ∧
      (st.check_month_rollover nowMonth).2.alerts_sent = (fun _ => []) ∧
      (st.check_month_rollover nowMonth).2.last_known_costs = (fun _ => none) ∧
      (st.check_month_rollover nowMonth).2.current_month = nowMonth ∧
      (st.check_month_rollover nowMonth).2.action_history = st.action_history) ∧
    (st.current_month = nowMonth →
      (st.check_month_rollover nowMonth).1 = false ∧
      (st.check_month_rollover nowMonth).2 = st) ∧
    ((st.check_month_rollover nowMonth).1 = true →
      ∀ p ∈ MONITORED_API_SERVICES,
        ((runCheckRollover st nowMonth pending enable).enableCalls).count p.2 = 1) := by
  by_cases h : st.current_month = nowMonth
  · refine ⟨?_, fun hne => absurd h hne, fun _ => ?_, ?_⟩
    · simp [GuardState.check_month_rollover, h]
    · simp [GuardState.check_month_rollover, h]
    · intro hroll
      rw [GuardState.check_month_rollover, if_pos h] at hroll
      exact absurd hroll (by simp)
  · have hroll : (st.check_month_rollover nowMonth)
        = (true,
           { st with
              baselines := fun _ => none
              alerts_sent := fun _ => []
              last_known_costs := fun _ => none
              current_month := nowMonth }) := by
      rw [GuardState.check_month_rollover, if_neg h]
    refine ⟨?_, fun _ => ?_, fun he => absurd he h, fun _ => ?_⟩
    · simp [hroll, h]
    · rw [hroll]
      exact ⟨rfl, rfl, rfl, rfl, rfl⟩
    · intro p hp
      have hcalls : (runCheckRollover st nowMonth pending enable).enableCalls
          = ["aiplatform.googleapis.com", "bigquery.googleapis.com",
             "firestore.googleapis.com"] := by
        rw [runCheckRollover, hroll]
        simp [re_enable_all, MONITORED_API_SERVICES, List.foldl]
      rw [hcalls]
      fin_cases hp <;> decide

/-- Witness for C4: a fresh state (stored month `""`) against month
`"2026-10"` detects a rollover, clears and re-stamps the state, keeps the
audit log, and the rollover prologue calls `enable_api` exactly once for
the bigquery API. -/
theorem month_rollover_frame_witness :
    (emptyState.current_month ≠ "2026-10") ∧
    ((emptyState.check_month_rollover "2026-10").1 = true ↔
      emptyState.current_month ≠ "2026-10") ∧
    (emptyState.check_month_rollover "2026-10").2.current_month = "2026-10" ∧
    (emptyState.check_month_rollover "2026-10").2.action_history
      = emptyState.action_history ∧
    ((runCheckRollover emptyState "2026-10" false (fun _ => true)).enableCalls).count
        "bigquery.googleapis.com" = 1 := by
  have hne : emptyState.current_month ≠ "2026-10" := by simp [emptyState]
  have h := month_rollover_frame emptyState "2026-10" false (fun _ => true)
  refine ⟨hne, h.1, (h.2.1 hne).2.2.2.1, (h.2.1 hne).2.2.2.2, ?_⟩
  exact h.2.2.2 (h.1.mpr hne) ("bigquery", "bigquery.googleapis.com") (by decide)

/-- C5: for a known service key, `reset_service` returns the
status/baseline_saved/api_enabled/alerts_reset record and performs all
side effects — baseline saved, alert flags cleared, audit entry appended
— for either outcome of the API-enable call, reporting `partial` instead
of raising when the enable fails. -/
theorem reset_service_effects (st : GuardState) (key api : String)
    (liveCost : Option ℚ) (enableOk : Bool) (hkey : lookupApi key = some api) :
    (reset_service st key liveCost enableOk).2 =
      some { status := if enableOk then "success" else "partial"
             service_key := key
             api_name := api
             api_enabled := enableOk
             baseline_saved := round4 (resetCumulativeCost st key liveCost)
             alerts_reset := true } ∧
    (reset_service st key liveCost enableOk).1.baselines key
      = some (round6 (resetCumulativeCost st key liveCost)) ∧
    (reset_service st key liveCost enableOk).1.alerts_sent key = [] ∧
    (reset_service st key liveCost enableOk).1.action_history
      = (if (st.action_history ++ ["reset_service"]).length > 200
         then (st.action_history ++ ["reset_service"]).drop
              ((st.action_history ++ ["reset_service"]).length - 200)
         else st.action_history ++ ["reset_service"]) ∧
    (enableOk = false →
      Option.map ResetResult.status (reset_service st key liveCost enableOk).2
        = some "partial") := by
  unfold reset_service
  rw [hkey]
  refine ⟨rfl, ?_, ?_, rfl, ?_⟩
  · simp [GuardState.set_baseline, GuardState.reset_alerts, GuardState.record_action,
      notificationResetAlerts]
  · simp [GuardState.set_baseline, GuardState.reset_alerts, GuardState.record_action,
      notificationResetAlerts]
  · intro h
    subst h
    simp

/-- Witness for C5: resetting `bigquery` with a failing enable call and a
live cost of $50 returns the `partial` record with the baseline saved and
the alert flags cleared. -/
theorem reset_service_effects_witness :
    lookupApi "bigquery" = some "bigquery.googleapis.com" ∧
    (reset_service emptyState "bigquery" (some 50) false).2
      = some { status := "partial", service_key := "bigquery",
               api_name := "bigquery.googleapis.com", api_enabled := false,
               baseline_saved := round4 (resetCumulativeCost emptyState "bigquery" (some 50)),
               alerts_reset := true } ∧
    (reset_service emptyState "bigquery" (some 50) false).1.baselines "bigquery"
      = some (round6 (resetCumulativeCost emptyState "bigquery" (some 50))) ∧
    (reset_service emptyState "bigquery" (some 50) false).1.alerts_sent "bigquery" = [] := by
  have hkey : lookupApi "bigquery" = some "bigquery.googleapis.com" := by
    simp [lookupApi, MONITORED_API_SERVICES, List.find?]
  have h := reset_service_effects emptyState "bigquery" "bigquery.googleapis.com"
    (some 50) false hkey
  refine ⟨hkey, ?_, h.2.1, h.2.2.1⟩
  rw [h.1]
  simp

/-- C3 (code-bug evaluation): under a sustained over-budget condition —
raw cost 150 against a $100 budget on two successive cycles with no reset
in between — `run_check` reaches the critical branch on both cycles, and
the cooldown-based `_send_alert` of the committed `NotificationService`
delivers the CRITICAL alert on both cycles once they are separated by
`ALERT_COOLDOWN_SECONDS` (3600 s here): two CRITICAL alerts within the
same billing period. -/
theorem critical_alert_duplicate_eval :
    (runCheckService emptyState "vertex_ai" "aiplatform.googleapis.com" 100 150
        false true).exceeded = true ∧
    (runCheckService (runCheckService emptyState "vertex_ai"
        "aiplatform.googleapis.com" 100 150 false true).state "vertex_ai"
        "aiplatform.googleapis.com" 100 150 false true).exceeded = true ∧
    (sendAlert 3600 initialNotifState "vertex_ai" "CRITICAL" 3600
        true true false).1 = true ∧
    (sendAlert 3600 (sendAlert 3600 initialNotifState "vertex_ai" "CRITICAL" 3600
        true true false).2 "vertex_ai" "CRITICAL" 7200 true true false).1 = true := by
  refine ⟨?_, ?_, ?_, ?_⟩
  · simp only [runCheckService, emptyState, GuardState.set_last_known_cost,
      GuardState.get_baseline, baselineStep, ServiceBudget.is_exceeded]
    norm_num
  · simp only [runCheckService, emptyState, GuardState.set_last_known_cost,
      GuardState.get_baseline, baselineStep, ServiceBudget.is_exceeded]
    norm_num
  · simp only [sendAlert, initialNotifState]
    norm_num
  · simp only [sendAlert, initialNotifState]
    norm_num

/-- C6 (amended): an upstream query error is caught inside the wrapper —
`_query_time_series` returns `None` and `get_total_units` returns 0
without raising — so no exception reaches the caller for a failed query;
the caller's except-to-warning conversion in `_compute_metric_expense`
(zero units plus a data-quality warning) is exercised only by exceptions
raised elsewhere in the usage lookup. -/
theorem get_total_units_swallows_query_error (e : String) (p : Option ℚ)
    (e' : String) :
    get_total_units (Except.error e) = Except.ok 0 ∧
    queryTimeSeries (Except.error e) = none ∧
    (compute_metric_expense (Except.ok p) (Except.error e')).unit_count = 0 ∧
    (compute_metric_expense (Except.ok p) (Except.error e')).warning ≠ none := by
  refine ⟨rfl, rfl, rfl, ?_⟩
  cases p <;> simp [compute_metric_expense]

/-- C6 counterexample: at the concrete upstream query error
`"deadline exceeded"`, `get_total_units` returns the value 0 instead of
raising (every `.error` input takes the same branch of
`_query_time_series`). -/
theorem get_total_units_counterexample :
    get_total_units (Except.error "deadline exceeded") = Except.ok 0 ∧
    queryTimeSeries (Except.error "deadline exceeded") = none :=
  ⟨rfl, rfl⟩

/-- C7: per-model token-price resolution tries the exact model name, then
the normalised name (strip `@version` and `publishers/.../models/`), then
the configured default input/output token price, then the global fallback
price — and consequently never returns `None`. -/
theorem model_price_resolution_total (c : Catalog) (model_id token_type : String) :
    (get_vertex_ai_model_price c model_id token_type).isSome = true ∧
    (∀ p, extract_model_token_price c.vertex_ai model_id token_type = some p →
      get_vertex_ai_model_price c model_id token_type = some p) ∧
    (∀ p, extract_model_token_price c.vertex_ai model_id token_type = none →
      normalize_model_id model_id ≠ model_id →
      extract_model_token_price c.vertex_ai (normalize_model_id model_id) token_type
        = some p →
      get_vertex_ai_model_price c model_id token_type = some p) ∧
    (∀ p, extract_model_token_price c.vertex_ai model_id token_type = none →
      (if normalize_model_id model_id ≠ model_id then
        extract_model_token_price c.vertex_ai (normalize_model_id model_id) token_type
       else none) = none →
      defaultTokenPrice c token_type = some p →
      get_vertex_ai_model_price c model_id token_type = some p) ∧
    (extract_model_token_price c.vertex_ai model_id token_type = none →
      (if normalize_model_id model_id ≠ model_id then
        extract_model_token_price c.vertex_ai (normalize_model_id model_id) token_type
       else none) = none →
      defaultTokenPrice c token_type = none →
      get_vertex_ai_model_price c model_id token_type = some c.fallbackPrice) := by
  refine ⟨?_, ?_, ?_, ?_, ?_⟩
  · unfold get_vertex_ai_model_price
    rcases h1 : extract_model_token_price c.vertex_ai model_id token_type with _ | p1
    · rcases h2 : (if normalize_model_id model_id ≠ model_id then
          extract_model_token_price c.vertex_ai (normalize_model_id model_id) token_type
        else none) with _ | p2
      · rcases h3 : defaultTokenPrice c token_type with _ | p3 <;> simp [h2, h3]
      · simp [h2]
    · simp
  · intro p h
    unfold get_vertex_ai_model_price
    rw [h]
  · intro p h1 hne h2
    unfold get_vertex_ai_model_price
    simp only [h1]
    rw [if_pos hne, h2]
  · intro p h1 h2 h3
    unfold get_vertex_ai_model_price
    simp only [h1]
    rw [h2, h3]
  · intro h1 h2 h3
    unfold get_vertex_ai_model_price
    simp only [h1]
    rw [h2, h3]

/-- A small concrete catalog used to witness C7: one known model, an
input-side default price, no global fallback entry (so the coded default
0.0001 applies). -/
def sampleCatalog : Catalog :=
  { vertex_ai := fun m =>
      if m = "gemini-2.5-pro" then
        some (fun t =>
          if t = "input" then some { price_per_unit := 5/4, unit_size := 1000000 }
          else if t = "output" then some { price_per_unit := 10, unit_size := 1000000 }
          else none)
      else none
    vertex_ai_defaults := fun k =>
      if k = "default_input_token_price" then some (3/10) else none
    default_token_unit_size := 1000000
    default_fallback_price := none }

/-- Witness for C7: a publisher-prefixed versioned id resolves through the
normalised match, an unknown model on the output side falls through to the
global fallback, and resolution always yields a price. -/
theorem model_price_resolution_total_witness :
    (get_vertex_ai_model_price sampleCatalog
      "publishers/google/models/gemini-2.5-pro@001" "input").isSome = true ∧
    get_vertex_ai_model_price sampleCatalog
      "publishers/google/models/gemini-2.5-pro@001" "input"
        = some ((5/4 : ℚ) / 1000000) ∧
    get_vertex_ai_model_price sampleCatalog "brand-new-model" "output"
        = some sampleCatalog.fallbackPrice := by
  have hnorm : normalize_model_id "publishers/google/models/gemini-2.5-pro@001"
      = "gemini-2.5-pro" := by
    decide
  have h := model_price_resolution_total sampleCatalog
    "publishers/google/models/gemini-2.5-pro@001" "input"
  have h' := model_price_resolution_total sampleCatalog "brand-new-model" "output"
  refine ⟨h.1, ?_, ?_⟩
  · refine h.2.2.1 ((5/4 : ℚ) / 1000000) ?_ ?_ ?_
    · simp [extract_model_token_price, sampleCatalog]
    · rw [hnorm]
      simp
    · rw [hnorm]
      simp [extract_model_token_price, sampleCatalog]
  · refine h'.2.2.2.2 ?_ ?_ ?_
    · simp [extract_model_token_price, sampleCatalog]
    · rw [if_neg]
      decide
    · simp [defaultTokenPrice, sampleCatalog]

theorem round6_zero : round6 0 = 0 := by
  norm_num [round6, rhe]

/-- C8: every discovered usage group of a catch-all metric — including a
never-before-seen model key — yields one per-group detail entry and
contributes its `price × units` to the item total (so none is silently
dropped); a group whose price resolution yields no price contributes 0
but is still recorded with `pricing_source = "none"`, while a priced
group is tagged `"model_catalog"`. -/
theorem catch_all_prices_every_group
    (priceFn : String → String → Except String (Option ℚ))
    (grouped : List UsageGroup) :
    (compute_catch_all_expense priceFn (Except.ok grouped)).2.2
        = grouped.map (priceGroup priceFn) ∧
    (compute_catch_all_expense priceFn (Except.ok grouped)).1
        = (grouped.map (groupExpense priceFn)).sum ∧
    (∀ g : UsageGroup, resolveGroupPrice priceFn g = none →
      (priceGroup priceFn g).pricing_source = "none" ∧
      (priceGroup priceFn g).price_per_unit = 0 ∧
      (priceGroup priceFn g).expense = 0 ∧
      groupExpense priceFn g = 0) ∧
    (∀ (g : UsageGroup) (p : ℚ), resolveGroupPrice priceFn g = some p →
      (priceGroup priceFn g).pricing_source = "model_catalog" ∧
      (priceGroup priceFn g).price_per_unit = p ∧
      groupExpense priceFn g = p * g.units) := by
  refine ⟨rfl, rfl, ?_, ?_⟩
  · intro g h
    refine ⟨?_, ?_, ?_, ?_⟩ <;>
      simp [priceGroup, groupExpense, h, round6_zero]
  · intro g p h
    refine ⟨?_, ?_, ?_⟩ <;> simp [priceGroup, groupExpense, h]

/-- A concrete catch-all price resolver used to witness C8: only
`gemini-2.5-pro` has a price; everything else resolves to no price. -/
def samplePriceFn : String → String → Except String (Option ℚ) :=
  fun m _ => if m = "gemini-2.5-pro" then Except.ok (some (1/1000000)) else Except.ok none

/-- Concrete discovered groups used to witness C8: one known model and one
never-before-seen model. -/
def sampleGroups : List UsageGroup :=
  [{ labels := [("model_user_id", "gemini-2.5-pro"), ("type", "input")], units := 1000000 },
   { labels := [("model_user_id", "brand-new-model"), ("type", "output")], units := 500 }]

/-- Witness for C8: the detail list covers both groups, the unseen model
is recorded with `pricing_source = "none"`, and the total is the priced
group's $1. -/
theorem catch_all_prices_every_group_witness :
    (compute_catch_all_expense samplePriceFn (Except.ok sampleGroups)).2.2
        = sampleGroups.map (priceGroup samplePriceFn) ∧
    resolveGroupPrice samplePriceFn
        { labels := [("model_user_id", "brand-new-model"), ("type", "output")],
          units := 500 } = none ∧
    (priceGroup samplePriceFn
        { labels := [("model_user_id", "brand-new-model"), ("type", "output")],
          units := 500 }).pricing_source = "none" ∧
    (compute_catch_all_expense samplePriceFn (Except.ok sampleGroups)).1 = 1 := by
  have h := catch_all_prices_every_group samplePriceFn sampleGroups
  have hnone : resolveGroupPrice samplePriceFn
      { labels := [("model_user_id", "brand-new-model"), ("type", "output")],
        units := 500 } = none := by
    simp [resolveGroupPrice, samplePriceFn, groupModelId, groupTokenType, labelGet,
      List.find?]
  refine ⟨h.1, hnone, (h.2.2.1 _ hnone).1, ?_⟩
  rw [h.2.1]
  have hsome : resolveGroupPrice samplePriceFn
      { labels := [("model_user_id", "gemini-2.5-pro"), ("type", "input")],
        units := 1000000 } = some (1/1000000) := by
    simp [resolveGroupPrice, samplePriceFn, groupModelId, groupTokenType, labelGet,
      List.find?]
  simp only [sampleGroups, List.map, List.sum_cons, List.sum_nil, groupExpense,
    hsome, hnone]
  norm_num

/-- C10 (implicit): `_send_alert` updates the `_last_sent` cooldown entry
only when at least one delivery channel reported success; when every
channel fails it returns `False` and leaves the cooldown state unchanged,
so a later cycle's identical alert behaves exactly as if the failed
attempt had never happened. -/
theorem cooldown_updated_only_on_success (cooldown : ℚ) (ns : NotifState)
    (key level : String) (now : ℚ) (emailEnabled emailOk pubsubOk : Bool) :
    ((emailEnabled && emailOk) = false → pubsubOk = false →
      sendAlert cooldown ns key level now emailEnabled emailOk pubsubOk = (false, ns)) ∧
    ((sendAlert cooldown ns key level now emailEnabled emailOk pubsubOk).1 = false →
      (sendAlert cooldown ns key level now emailEnabled emailOk pubsubOk).2 = ns) ∧
    ((sendAlert cooldown ns key level now emailEnabled emailOk pubsubOk).1 = true →
      ((emailEnabled && emailOk) || pubsubOk) = true) ∧
    ((emailEnabled && emailOk) = false → pubsubOk = false →
      ∀ (now' : ℚ) (ee eo po : Bool),
        sendAlert cooldown
          (sendAlert cooldown ns key level now emailEnabled emailOk pubsubOk).2
          key level now' ee eo po
        = sendAlert cooldown ns key level now' ee eo po) := by
  unfold sendAlert
  by_cases hc : now - ns.last_sent (key, level) < cooldown
  · rw [if_pos hc]
    refine ⟨fun _ _ => rfl, fun _ => rfl, fun h => absurd h (by simp), ?_⟩
    intro _ _ now' ee eo po
    rfl
  · rw [if_neg hc]
    by_cases hs : (emailEnabled && emailOk || pubsubOk) = true
    · simp only [hs]
      refine ⟨?_, ?_, fun _ => by simp [hs], ?_⟩
      · intro h1 h2
        rw [h1, h2] at hs
        exact absurd hs (by simp)
      · intro h
        simp at h
      · intro h1 h2
        rw [h1, h2] at hs
        exact absurd hs (by simp)
    · have hs' : (emailEnabled && emailOk || pubsubOk) = false :=
        Bool.eq_false_iff.mpr hs
      simp only [hs']
      refine ⟨fun _ _ => by simp, fun _ => by simp, fun h => absurd h (by simp), ?_⟩
      intro _ _ now' ee eo po
      simp

/-- Witness for C10: with the cooldown elapsed but both channels failing,
`_send_alert` reports `False` and leaves the fresh tracker untouched. -/
theorem cooldown_updated_only_on_success_witness :
    ((true && false) = false) ∧ (false = false) ∧
    sendAlert 3600 initialNotifState "vertex_ai" "CRITICAL" 7200 true false false
      = (false, initialNotifState) := by
  have h := cooldown_updated_only_on_success 3600 initialNotifState "vertex_ai"
    "CRITICAL" 7200 true false false
  exact ⟨by simp, rfl, h.1 (by simp) rfl⟩

end BudgetGuard
